import Mathlib

/-!
Shallow embedding of the appointment-booking webhook handler (`src/main.py`).

External collaborators (the dateparser library, the Cal.com scheduling and
booking HTTP API, the Cosmos session store, strftime formatting in the fixed
display timezone) are modelled as oracle functions gathered in an `Env`
record; the code of `main.py` itself (session defaulting, stage dispatch,
date validation against the booking window, slot-map construction, the
next-available-date scan, the booking flow and every reply string) is
translated function by function.

Calendar dates are modelled as integers (day numbers); `timedelta(days=i)`
becomes integer addition, and comparisons between dates are integer
comparisons, which is faithful because `datetime.date` is totally ordered by
calendar day.
-/

namespace Booking

/-- `BOOKING_WINDOW_DAYS = 30` from the configuration section. -/
def BOOKING_WINDOW_DAYS : Nat := 30

/-- One raw slot object from the scheduling API response: the code reads only
its `start` ISO-8601 UTC timestamp (`slot["start"]`). -/
structure RawSlot where
  start : String
deriving DecidableEq, Repr

/-- One stored slot record `{iso, label}` as built by `get_slots_for_date`. -/
structure Slot where
  iso : String
  label : String
deriving DecidableEq, Repr

/-- The per-user session dictionary.  `slots` is the ordered mapping from
choice key to slot record (a Python dict with insertion order, modelled as an
association list); fields start as `None` exactly as in the fresh-session
literal of `signal_handler`. -/
structure Session where
  name : Option String
  email : Option String
  date : Option String
  slots : Option (List (String × Slot))
  selected_slot : Option Slot
  stage : String
deriving DecidableEq, Repr

/-- The booking confirmation's `data` object.  The handler reads
`meetingUrl`, `location` and `start` with `.get`; `duration` and the host
name are present in the API response (spec §6) but never read by the code,
so they are carried here to let claims about them be stated. -/
structure BookingData where
  meetingUrl : Option String
  location : Option String
  start : Option String
  duration : Option Nat
  hostName : Option String
deriving DecidableEq, Repr

/-- The parsed JSON body of a booking response; `booking["data"]` raises
`KeyError` when the key is absent, hence the `Option`. -/
structure BookingResponse where
  data : Option BookingData
deriving DecidableEq, Repr

/-- The oracle environment: the fixed current time and the external
collaborators.  `dateparser_parse` already yields the parsed result as a
calendar date in the display timezone (collapsing
`parsed.astimezone(ist).date()`); `slots_api` yields the HTTP status code
and the list under `data[date_str]` (empty when absent); `booking_api`
yields the status code and parsed JSON body; the three formatting oracles
stand for `date.isoformat()`, `date.strftime("%d %b")` and the
UTC-to-IST `strftime("%d %b %Y, %I:%M %p IST")` conversion; `toIstLabel`
stands for the UTC-to-IST `strftime("%d %b, %I:%M %p")` conversion. -/
structure Env where
  today : Int
  dateparser_parse : String → Option Int
  slots_api : Int → Nat × List RawSlot
  toIstLabel : String → String
  isoformat : Int → String
  strftime_dMb : Int → String
  booking_api : Option String → Option String → String → Nat × BookingResponse
  fmtBookingTime : String → String

/-- Python `str.strip()`: drop whitespace from both ends. -/
def pyStrip (s : String) : String :=
  ⟨((s.data.dropWhile Char.isWhitespace).reverse.dropWhile
      Char.isWhitespace).reverse⟩

/-- Python `str.lower()`: lowercase character by character. -/
def pyLower (s : String) : String :=
  ⟨s.data.map Char.toLower⟩

/-- Python truthiness of `a or b` on optional strings: an absent or empty
`meetingUrl` falls through to `location`. -/
def pyOr (a b : Option String) : Option String :=
  match a with
  | some s => if s = "" then b else some s
  | none => b

/-- Python string interpolation of a possibly-`None` value: `f"{x}"` prints
the literal text `None` when `x` is `None`. -/
def pyStr (o : Option String) : String :=
  match o with
  | some s => s
  | none => "None"

/-- The reply envelope `{action, message, status, meta}`. -/
structure Envelope where
  action : String
  message : String
  status : String
  meta : List (String × String)
deriving DecidableEq, Repr

/-- `response(action, message, status="PENDING", meta=None)`:
`meta or {}` defaults the map to empty. -/
def response (action message status : String)
    (meta : Option (List (String × String))) : Envelope :=
  { action := action, message := message, status := status,
    meta := meta.getD [] }

/-- Outcome of the Cosmos `read_item` call inside `get_session`: a found
document (its `state` field), a not-found condition, or any other store
error — the last two both surface as exceptions in Python. -/
inductive ReadOutcome where
  | found (s : Session)
  | notFound
  | storeError
deriving DecidableEq, Repr

/-- `get_session`: returns the document's `state`, and `None` on ANY
exception (the bare `except:` catches not-found and every other error
alike). -/
def get_session : ReadOutcome → Option Session
  | .found s => some s
  | .notFound => none
  | .storeError => none

/-- The single session-store side effect of one handler invocation:
`save_session(phone, state)`, `delete_session(phone)`, or nothing. -/
inductive Effect where
  | save (phone : String) (state : Session)
  | delete (phone : String)
  | noop
deriving DecidableEq, Repr

/-- Result of one handler invocation: a returned envelope together with the
store effect, or an uncaught Python exception (`crash`). -/
inductive HandlerResult where
  | ok (envl : Envelope) (eff : Effect)
  | crash
deriving DecidableEq, Repr

/-- `parse_user_date(text)`: delegate to dateparser, then reject dates
strictly before today or more than `BOOKING_WINDOW_DAYS` after today. -/
def parse_user_date (env : Env) (text : String) : Option Int :=
  match env.dateparser_parse text with
  | none => none
  | some parsed_date =>
    if parsed_date < env.today then none
    else if parsed_date > env.today + BOOKING_WINDOW_DAYS then none
    else some parsed_date

/-- `get_slots_for_date(target_date)`: empty on a non-200 status, otherwise
fold the first three raw slots into the ordered map, keying each new entry
`str(len(slot_map) + 1)` and converting its UTC start to an IST label. -/
def get_slots_for_date (env : Env) (target_date : Int) :
    List (String × Slot) :=
  let res := env.slots_api target_date
  if res.1 ≠ 200 then []
  else
    (res.2.take 3).foldl
      (fun slot_map slot =>
        slot_map ++
          [(toString (slot_map.length + 1),
            { iso := slot.start, label := env.toIstLabel slot.start })])
      []

/-- The loop body of `find_next_available_date`: `i` is the current offset
(`range(1, 31)` starts at 1) and `fuel` the number of offsets still to try;
`i + fuel = 31` throughout the top-level call. -/
def find_next_aux (env : Env) (start_date : Int) : Nat → Nat →
    Option Int × List (String × Slot)
  | _, 0 => (none, [])
  | i, fuel + 1 =>
    let next_date := start_date + (i : Int)
    let slots := get_slots_for_date env next_date
    if slots = [] then find_next_aux env start_date (i + 1) fuel
    else (some next_date, slots)

/-- `find_next_available_date(start_date)`: scan
`start_date + 1 … start_date + BOOKING_WINDOW_DAYS` and return the first
date with a non-empty slot map, else `(None, {})`. -/
def find_next_available_date (env : Env) (start_date : Int) :
    Option Int × List (String × Slot) :=
  find_next_aux env start_date 1 BOOKING_WINDOW_DAYS

/-- `create_booking(name, email, start_iso_utc)`: `None` unless the status
code is 200 or 201, otherwise the parsed JSON body. -/
def create_booking (env : Env) (name email : Option String)
    (start_iso_utc : String) : Option BookingResponse :=
  let res := env.booking_api name email start_iso_utc
  if res.1 = 200 ∨ res.1 = 201 then some res.2 else none

/-- The fresh-session literal that `signal_handler` uses when
`get_session` returns `None`. -/
def freshState : Session :=
  { name := none, email := none, date := none, slots := none,
    selected_slot := none, stage := "ASK_NAME" }

/-- The slot-listing loop `for k, v in state["slots"].items(): msg += ...`. -/
def slotLines (msg : String) (slots : List (String × Slot)) : String :=
  slots.foldl (fun m kv => m ++ kv.1 ++ ". " ++ kv.2.label ++ "\n") msg

/-- `signal_handler(req)`: the full webhook body.  `read` is the outcome of
the session-store read for `phone`; `message` is `req.message`. -/
def signal_handler (env : Env) (read : ReadOutcome)
    (phone message : String) : HandlerResult :=
  let text := pyLower (pyStrip message)
  let state := (get_session read).getD freshState
  if state.stage = "ASK_NAME" then
    let state := { state with name := some (pyStrip message), stage := "ASK_EMAIL" }
    .ok (response "SEND_MESSAGE" "Thanks 😊 Please share your email ID."
          "PENDING" none)
       (.save phone state)
  else if state.stage = "ASK_EMAIL" then
    let state := { state with email := some (pyStrip message), stage := "ASK_DATE" }
    .ok (response "SEND_MESSAGE"
          ("📅 Which date would you prefer?\n\n" ++
           "You can say:\n" ++
           "• today / tomorrow\n" ++
           "• 23rd / 23 Feb\n" ++
           "• this Friday / next Monday")
          "PENDING" none)
       (.save phone state)
  else if state.stage = "ASK_DATE" then
    match parse_user_date env message with
    | none =>
      .ok (response "SEND_MESSAGE"
            "❌ I couldn’t understand the date. Please try something like *23rd*, *tomorrow*, or *next Monday*."
            "PENDING" none)
         .noop
    | some selected_date =>
      let slots := get_slots_for_date env selected_date
      if slots = [] then
        match find_next_available_date env selected_date with
        | (none, _) =>
          .ok (response "SEND_MESSAGE"
                "⚠️ No availability in the next 30 days. Please try later."
                "PENDING" none)
             .noop
        | (some next_date, next_slots) =>
          let state := { state with
            date := some (env.isoformat next_date),
            slots := some next_slots,
            stage := "ASK_SLOT" }
          let msg :=
            "⚠️ No slots on *" ++ env.strftime_dMb selected_date ++
            "*.\n\n✅ Next available date is *" ++ env.strftime_dMb next_date ++
            "*:\n\n"
          .ok (response "SEND_MESSAGE"
                (slotLines msg next_slots ++ "\nReply with *1, 2, or 3*.")
                "PENDING" none)
             (.save phone state)
      else
        let state := { state with
          date := some (env.isoformat selected_date),
          slots := some slots,
          stage := "ASK_SLOT" }
        .ok (response "SEND_MESSAGE"
              (slotLines "🕒 *Available slots (IST):*\n\n" slots ++
               "\nReply with *1, 2, or 3*.")
              "PENDING" none)
           (.save phone state)
  else if state.stage = "ASK_SLOT" then
    match state.slots with
    | none => .crash
    | some slots =>
      match List.lookup text slots with
      | none =>
        .ok (response "SEND_MESSAGE" "❌ Invalid choice." "PENDING" none) .noop
      | some chosen =>
        let state := { state with
          selected_slot := some chosen, stage := "CONFIRM_BOOKING" }
        .ok (response "SEND_MESSAGE"
              ("✅ *Please confirm your booking*\n\n👤 " ++
               pyStr state.name ++ "\n📧 " ++ pyStr state.email ++
               "\n📅 " ++ chosen.label ++
               " IST\n\nReply with *YES* to confirm or *NO* to change the date.")
              "PENDING" none)
           (.save phone state)
  else if state.stage = "CONFIRM_BOOKING" then
    if text = "no" then
      let state := { state with stage := "ASK_DATE" }
      .ok (response "SEND_MESSAGE" "Okay 👍 Please share a new preferred date."
            "PENDING" none)
         (.save phone state)
    else if text ≠ "yes" then
      .ok (response "SEND_MESSAGE" "Please reply with *YES* or *NO*."
            "PENDING" none)
         .noop
    else
      match state.selected_slot with
      | none => .crash
      | some sel =>
        match create_booking env state.name state.email sel.iso with
        | none =>
          .ok (response "SEND_MESSAGE" "⚠️ Booking failed." "PENDING" none)
             .noop
        | some booking =>
          match booking.data with
          | none => .crash
          | some d =>
            let meeting_url := pyOr d.meetingUrl d.location
            match d.start with
            | none => .crash
            | some start_utc =>
              .ok (response "SEND_MESSAGE"
                    ("🎉 *Appointment Confirmed!*\n\n👤 *Name:* " ++
                     pyStr state.name ++ "\n📧 *Email:* " ++
                     pyStr state.email ++ "\n📅 *Time:* " ++
                     env.fmtBookingTime start_utc ++
                     "\n\n🔗 *Meeting Link:*\n" ++ pyStr meeting_url ++ "\n")
                    "BOOKED" none)
                 (.delete phone)
  else
    .ok (response "SEND_MESSAGE" "Something went wrong. Please start again."
          "PENDING" none)
       .noop

/-! ## Derived definitions used by the verification -/

/-- The slot map that `get_slots_for_date` builds: entry `j` of the list is
keyed `toString (k + j)` (`k` is the number of entries already present plus
one) and holds `g` of the raw slot. -/
def numbered (g : RawSlot → Slot) : Nat → List RawSlot → List (String × Slot)
  | _, [] => []
  | k, s :: rest => (toString k, g s) :: numbered g (k + 1) rest

/-- The stage edges the spec allows:
`ASK_NAME→ASK_EMAIL→ASK_DATE→ASK_SLOT→CONFIRM_BOOKING`, plus the
`CONFIRM_BOOKING→ASK_DATE` backtrack. -/
def AllowedEdge (a b : String) : Prop :=
  (a = "ASK_NAME" ∧ b = "ASK_EMAIL") ∨
  (a = "ASK_EMAIL" ∧ b = "ASK_DATE") ∨
  (a = "ASK_DATE" ∧ b = "ASK_SLOT") ∨
  (a = "ASK_SLOT" ∧ b = "CONFIRM_BOOKING") ∨
  (a = "CONFIRM_BOOKING" ∧ b = "ASK_DATE")

/-- Sessions reachable through the handler: the fresh session, plus
everything `save_session` can store starting from a reachable session,
under any environment and input. -/
inductive Reachable : Session → Prop where
  | init : Reachable freshState
  | step (s : Session) (env : Env) (phone msg : String) (envl : Envelope)
      (ph : String) (s2 : Session) :
      Reachable s →
      signal_handler env (.found s) phone msg = .ok envl (.save ph s2) →
      Reachable s2

/-- The shape every reachable session has: the fields the later stages
dereference are present. -/
def SessionWF (s : Session) : Prop :=
  (s.stage = "ASK_SLOT" → s.slots ≠ none) ∧
  (s.stage = "CONFIRM_BOOKING" → s.selected_slot ≠ none)

/-- The booking API's interface contract (spec §4.4/§6): a success body
carries a `data` object with a `start` timestamp. -/
def EnvWF (env : Env) : Prop :=
  ∀ n e i, ∃ d st, ((env.booking_api n e i).2).data = some d ∧
    d.start = some st

/-- Apply one store side effect to a session store (modelled as a map from
phone to stored session): `save` upserts, `delete` removes, `noop` keeps. -/
def applyEffect (store : String → Option Session) :
    Effect → (String → Option Session)
  | .save ph s => fun p => if p = ph then some s else store p
  | .delete ph => fun p => if p = ph then none else store p
  | .noop => store

/-- The read outcome a store yields for a phone (no store error). -/
def readOf (store : String → Option Session) (phone : String) : ReadOutcome :=
  match store phone with
  | some s => .found s
  | none => .notFound

/-- One webhook invocation against a store. -/
def handleOnStore (env : Env) (store : String → Option Session)
    (phone msg : String) : HandlerResult :=
  signal_handler env (readOf store phone) phone msg

/-- The store contents after one webhook invocation (a crash performs no
store write). -/
def storeAfter (env : Env) (store : String → Option Session)
    (phone msg : String) : String → Option Session :=
  match handleOnStore env store phone msg with
  | .ok _ eff => applyEffect store eff
  | .crash => store

/-- `pat` occurs as a contiguous substring of `s`. -/
def strContains (s pat : String) : Prop :=
  pat.data <:+: s.data

instance strContainsDec (s pat : String) : Decidable (strContains s pat) :=
  List.decidableInfix pat.data s.data

/-! ## Concrete test fixtures -/

/-- A concrete environment: today is day 0, "tomorrow" parses to day 1, the
scheduling API offers two slots on day 1 and none elsewhere, and the booking
API confirms with meeting URL, a 45-minute duration and host "Alice". -/
def envC : Env where
  today := 0
  dateparser_parse := fun t => if t = "tomorrow" then some 1 else none
  slots_api := fun d =>
    (200, if d = 1 then [⟨"2026-01-02T04:30:00Z"⟩, ⟨"2026-01-02T05:00:00Z"⟩]
          else [])
  toIstLabel := fun s => "IST(" ++ s ++ ")"
  isoformat := fun d => "D" ++ toString d
  strftime_dMb := fun d => "d" ++ toString d
  booking_api := fun _ _ _ =>
    (200, ⟨some ⟨some "https://meet/x", none, some "2026-01-02T04:30:00Z",
            some 45, some "Alice"⟩⟩)
  fmtBookingTime := fun _ => "02 Jan 2026, 10:00 AM IST"

/-- `envC` with a different host and duration in the booking confirmation;
everything else identical. -/
def envC2 : Env :=
  { envC with
    booking_api := fun _ _ _ =>
      (200, ⟨some ⟨some "https://meet/x", none, some "2026-01-02T04:30:00Z",
              some 30, some "Bob"⟩⟩) }

/-- `envC` with a failing booking API (HTTP 500). -/
def envFail : Env :=
  { envC with booking_api := fun _ _ _ => (500, ⟨none⟩) }

/-- The slot map `get_slots_for_date envC 1` produces. -/
def m1C : List (String × Slot) :=
  [("1", ⟨"2026-01-02T04:30:00Z", "IST(2026-01-02T04:30:00Z)"⟩),
   ("2", ⟨"2026-01-02T05:00:00Z", "IST(2026-01-02T05:00:00Z)"⟩)]

/-- Session after the name turn. -/
def sC1 : Session :=
  { freshState with name := some "Jane", stage := "ASK_EMAIL" }

/-- Session after the email turn. -/
def sC2 : Session :=
  { sC1 with email := some "jane@x.com", stage := "ASK_DATE" }

/-- Session after the date turn ("tomorrow", two slots on day 1). -/
def sC3 : Session :=
  { sC2 with date := some "D1", slots := some m1C, stage := "ASK_SLOT" }

/-- Session after choosing slot "1". -/
def sC4 : Session :=
  { sC3 with selected_slot := some ⟨"2026-01-02T04:30:00Z",
      "IST(2026-01-02T04:30:00Z)"⟩, stage := "CONFIRM_BOOKING" }

/-- Session after replying "no" to the confirmation prompt. -/
def sC5 : Session :=
  { sC4 with stage := "ASK_DATE" }

/-- A session store holding `sC3` (stage ASK_SLOT) for phone "p". -/
def storeW : String → Option Session :=
  fun p => if p = "p" then some sC3 else none

/-- The confirmation reply text produced for `sC4` under `envC`. -/
def confirmMsgC : String :=
  "🎉 *Appointment Confirmed!*\n\n👤 *Name:* Jane\n📧 *Email:* jane@x.com\n📅 *Time:* 02 Jan 2026, 10:00 AM IST\n\n🔗 *Meeting Link:*\nhttps://meet/x\n"

/-! ## Supporting lemmas -/

lemma foldl_build_eq (env : Env) (l : List RawSlot) :
    ∀ acc : List (String × Slot),
      l.foldl
        (fun slot_map slot =>
          slot_map ++
            [(toString (slot_map.length + 1),
              { iso := slot.start, label := env.toIstLabel slot.start })])
        acc
        = acc ++ numbered
            (fun s => { iso := s.start, label := env.toIstLabel s.start })
            (acc.length + 1) l := by
  induction l with
  | nil => intro acc; simp [numbered]
  | cons s rest ih =>
    intro acc
    simp only [List.foldl_cons]
    rw [ih]
    simp [numbered, Nat.add_assoc]

lemma numbered_length (g : RawSlot → Slot) (l : List RawSlot) :
    ∀ k, (numbered g k l).length = l.length := by
  induction l with
  | nil => intro k; simp [numbered]
  | cons s rest ih => intro k; simp [numbered, ih]

lemma numbered_keys (g : RawSlot → Slot) (l : List RawSlot) :
    ∀ k, (numbered g k l).map Prod.fst
      = (List.range' k l.length).map toString := by
  induction l with
  | nil => intro k; simp [numbered]
  | cons s rest ih =>
    intro k
    rw [List.length_cons, List.range'_succ k rest.length 1]
    simp [numbered, ih]

lemma numbered_vals (g : RawSlot → Slot) (l : List RawSlot) :
    ∀ k, (numbered g k l).map Prod.snd = l.map g := by
  induction l with
  | nil => intro k; simp [numbered]
  | cons s rest ih => intro k; simp [numbered, ih]

/-- `get_slots_for_date` written through `numbered`. -/
lemma get_slots_for_date_eq (env : Env) (d : Int) :
    get_slots_for_date env d =
      if (env.slots_api d).1 ≠ 200 then []
      else numbered (fun s => { iso := s.start, label := env.toIstLabel s.start })
             1 ((env.slots_api d).2.take 3) := by
  unfold get_slots_for_date
  dsimp only
  split
  · rfl
  · rw [foldl_build_eq]
    simp

/-- Reading through a store never errors and yields exactly the stored
session. -/
lemma get_session_readOf (store : String → Option Session) (phone : String) :
    get_session (readOf store phone) = store phone := by
  cases h : store phone <;> simp [readOf, get_session, h]

/-- A successful `create_booking` under a well-formed booking API yields a
body with a `data` object carrying a `start`. -/
lemma create_booking_data (env : Env) (henv : EnvWF env)
    (n e : Option String) (i : String) (resp : BookingResponse)
    (h : create_booking env n e i = some resp) :
    ∃ d st, resp.data = some d ∧ d.start = some st := by
  unfold create_booking at h
  dsimp only at h
  split at h
  · cases h
    exact henv n e i
  · exact absurd h (by simp)

/-- `Reachable.step` with the reply envelope existentially packaged. -/
lemma reachable_of_step (s : Session) (env : Env) (phone msg : String)
    (s2 : Session) (hs : Reachable s)
    (h : ∃ envl, signal_handler env (.found s) phone msg
          = .ok envl (.save phone s2)) : Reachable s2 := by
  obtain ⟨envl, h⟩ := h
  exact .step s env phone msg envl phone s2 hs h

/-- Every reachable session is well-formed: the fields the later stages
dereference are present, so the handler cannot crash on stored state. -/
lemma reachable_sessionWF (s : Session) (h : Reachable s) : SessionWF s := by
  induction h with
  | init =>
    exact ⟨fun hh => absurd hh (by decide), fun hh => absurd hh (by decide)⟩
  | step s env phone msg envl ph s2 hr hstep ih =>
    unfold signal_handler at hstep
    dsimp only at hstep
    repeat' split at hstep
    all_goals simp_all [get_session]
    all_goals (obtain ⟨-, -, rfl⟩ := hstep)
    all_goals refine ⟨fun hh => ?_, fun hh => ?_⟩ <;> simp_all

/-! ## Claim theorems -/

/-- C1: a single handler invocation changes `stage` (that is, saves a
session whose stage differs or not from the current one) only along the
edges ASK_NAME→ASK_EMAIL, ASK_EMAIL→ASK_DATE, ASK_DATE→ASK_SLOT,
ASK_SLOT→CONFIRM_BOOKING and CONFIRM_BOOKING→ASK_DATE, for any session,
environment and input. -/
theorem stage_transition_edges (env : Env) (read : ReadOutcome)
    (phone msg : String) (envl : Envelope) (ph : String) (s2 : Session)
    (h : signal_handler env read phone msg = .ok envl (.save ph s2)) :
    AllowedEdge ((get_session read).getD freshState).stage s2.stage := by
  unfold signal_handler at h
  dsimp only at h
  repeat' split at h
  all_goals simp_all [AllowedEdge, response]
  all_goals (obtain ⟨-, -, rfl⟩ := h)
  all_goals rfl

/-- C1 witness: the rejection turn from `sC4` saves `sC5`, and
CONFIRM_BOOKING→ASK_DATE is an allowed edge. -/
theorem stage_transition_edges_witness :
    AllowedEdge ((get_session (.found sC4)).getD freshState).stage sC5.stage :=
  stage_transition_edges envC (.found sC4) "p" "no"
    (response "SEND_MESSAGE" "Okay 👍 Please share a new preferred date."
      "PENDING" none)
    "p" sC5 (by decide)

/-- C2 counterexample: a reachable session that arrived in ASK_DATE through
the "no" rejection still holds the old non-empty slot mapping — `slots` is
NOT cleared on rejection, and the slots-only-in-ASK_SLOT/CONFIRM_BOOKING
invariant fails. -/
theorem slots_not_cleared_counterexample :
    Reachable sC5 ∧ sC5.stage = "ASK_DATE" ∧ sC5.slots = some m1C ∧
    m1C ≠ [] := by
  refine ⟨?_, rfl, rfl, by decide⟩
  have h1 : Reachable sC1 :=
    reachable_of_step freshState envC "p" "Jane" sC1 .init ⟨_, rfl⟩
  have h2 : Reachable sC2 :=
    reachable_of_step sC1 envC "p" "jane@x.com" sC2 h1 ⟨_, rfl⟩
  have h3 : Reachable sC3 :=
    reachable_of_step sC2 envC "p" "tomorrow" sC3 h2 ⟨_, rfl⟩
  have h4 : Reachable sC4 :=
    reachable_of_step sC3 envC "p" "1" sC4 h3 ⟨_, rfl⟩
  exact reachable_of_step sC4 envC "p" "no" sC5 h4 ⟨_, rfl⟩

/-- C2 (amended): in CONFIRM_BOOKING a case-insensitive "no" saves the
session back in ASK_DATE with `name` and `email` retained, but `slots` and
`selected_slot` are retained as well, NOT cleared; consequently a session
in ASK_DATE can carry a non-empty `slots` mapping. -/
theorem confirm_no_keeps_fields (env : Env) (read : ReadOutcome)
    (phone msg : String) (s : Session)
    (hs : (get_session read).getD freshState = s)
    (hstage : s.stage = "CONFIRM_BOOKING")
    (hno : pyLower (pyStrip msg) = "no") :
    signal_handler env read phone msg =
      .ok (response "SEND_MESSAGE" "Okay 👍 Please share a new preferred date."
            "PENDING" none)
         (.save phone { s with stage := "ASK_DATE" }) := by
  subst hs
  unfold signal_handler
  dsimp only
  simp [hstage, hno]

/-- C2 amended-claim witness: replying "NO" from `sC4` saves `sC5`, which
retains name, email, slots and selected slot. -/
theorem confirm_no_keeps_fields_witness :
    signal_handler envC (.found sC4) "p" "NO" =
      .ok (response "SEND_MESSAGE" "Okay 👍 Please share a new preferred date."
            "PENDING" none)
         (.save "p" { sC4 with stage := "ASK_DATE" }) :=
  confirm_no_keeps_fields envC (.found sC4) "p" "NO" sC4 rfl rfl (by decide)

set_option maxRecDepth 10000 in
/-- C3 counterexample: a successful "yes" turn whose booking confirmation
carries host "Alice" and duration 45.  The session is deleted as claimed,
but the reply contains neither the host name nor any duration (neither the
actual 45 nor the claimed 30-minute default), and a confirmation with a
different host and duration produces the identical reply. -/
theorem booking_reply_no_host_counterexample :
    signal_handler envC (.found sC4) "p" "yes" =
      .ok (response "SEND_MESSAGE" confirmMsgC "BOOKED" none) (.delete "p") ∧
    ¬ strContains confirmMsgC "Alice" ∧
    ¬ strContains confirmMsgC "45" ∧
    ¬ strContains confirmMsgC "30" ∧
    signal_handler envC2 (.found sC4) "p" "yes" =
      signal_handler envC (.found sC4) "p" "yes" :=
  ⟨by decide, by decide, by decide, by decide, rfl⟩

/-- C3 (amended): on a "yes" in CONFIRM_BOOKING with a successful booking,
the handler deletes the session and replies with status BOOKED; the reply
contains the attendee name, the attendee email, the booking start time
converted to the display timezone, and the meeting link (`meetingUrl`,
falling back to `location` when `meetingUrl` is absent or empty, and the
literal text `None` when both are absent); the host name and the duration
do not appear and no host or 30-minute-duration fallback is applied. -/
theorem confirm_yes_success_reply (env : Env) (read : ReadOutcome)
    (phone msg : String) (s : Session) (sel : Slot)
    (resp : BookingResponse) (d : BookingData) (st : String)
    (hs : (get_session read).getD freshState = s)
    (hstage : s.stage = "CONFIRM_BOOKING")
    (hyes : pyLower (pyStrip msg) = "yes")
    (hsel : s.selected_slot = some sel)
    (hbook : create_booking env s.name s.email sel.iso = some resp)
    (hdata : resp.data = some d)
    (hstart : d.start = some st) :
    signal_handler env read phone msg =
      .ok (response "SEND_MESSAGE"
            ("🎉 *Appointment Confirmed!*\n\n👤 *Name:* " ++ pyStr s.name ++
             "\n📧 *Email:* " ++ pyStr s.email ++ "\n📅 *Time:* " ++
             env.fmtBookingTime st ++ "\n\n🔗 *Meeting Link:*\n" ++
             pyStr (pyOr d.meetingUrl d.location) ++ "\n")
            "BOOKED" none)
         (.delete phone) := by
  subst hs
  unfold signal_handler
  dsimp only
  simp [hstage, hyes, hsel, hbook, hdata, hstart]

/-- C3 amended-claim witness: the concrete success turn from `sC4` under
`envC`. -/
theorem confirm_yes_success_reply_witness :
    signal_handler envC (.found sC4) "p" "yes" =
      .ok (response "SEND_MESSAGE"
            ("🎉 *Appointment Confirmed!*\n\n👤 *Name:* " ++
             pyStr sC4.name ++ "\n📧 *Email:* " ++ pyStr sC4.email ++
             "\n📅 *Time:* " ++
             envC.fmtBookingTime "2026-01-02T04:30:00Z" ++
             "\n\n🔗 *Meeting Link:*\n" ++
             pyStr (pyOr (some "https://meet/x") none) ++ "\n")
            "BOOKED" none)
         (.delete "p") :=
  confirm_yes_success_reply envC (.found sC4) "p" "yes" sC4
    ⟨"2026-01-02T04:30:00Z", "IST(2026-01-02T04:30:00Z)"⟩
    ⟨some ⟨some "https://meet/x", none, some "2026-01-02T04:30:00Z",
      some 45, some "Alice"⟩⟩
    ⟨some "https://meet/x", none, some "2026-01-02T04:30:00Z",
      some 45, some "Alice"⟩
    "2026-01-02T04:30:00Z"
    rfl rfl (by decide) rfl (by decide) rfl rfl

/-- C5: an invalid slot choice in ASK_SLOT, or a date the Date Resolver
rejects in ASK_DATE, produces an error reply with no store effect; the
store is unchanged, so repeating the same invalid input gives the same
result on the same unchanged session. -/
theorem invalid_input_idempotent (env : Env)
    (store : String → Option Session) (phone msg : String) (s : Session)
    (hs : (store phone).getD freshState = s) :
    (∀ m, s.stage = "ASK_SLOT" → s.slots = some m →
      List.lookup (pyLower (pyStrip msg)) m = none →
      handleOnStore env store phone msg =
        .ok (response "SEND_MESSAGE" "❌ Invalid choice." "PENDING" none)
           .noop ∧
      storeAfter env store phone msg = store ∧
      handleOnStore env (storeAfter env store phone msg) phone msg =
        handleOnStore env store phone msg) ∧
    (s.stage = "ASK_DATE" → parse_user_date env msg = none →
      handleOnStore env store phone msg =
        .ok (response "SEND_MESSAGE"
              "❌ I couldn’t understand the date. Please try something like *23rd*, *tomorrow*, or *next Monday*."
              "PENDING" none)
           .noop ∧
      storeAfter env store phone msg = store ∧
      handleOnStore env (storeAfter env store phone msg) phone msg =
        handleOnStore env store phone msg) := by
  constructor
  · intro m hstage hslots hlook
    have h1 : handleOnStore env store phone msg =
        .ok (response "SEND_MESSAGE" "❌ Invalid choice." "PENDING" none)
           .noop := by
      unfold handleOnStore signal_handler
      dsimp only
      rw [get_session_readOf, hs]
      simp [hstage, hslots, hlook]
    have h2 : storeAfter env store phone msg = store := by
      unfold storeAfter
      rw [h1]
      rfl
    exact ⟨h1, h2, by rw [h2]⟩
  · intro hstage hparse
    have h1 : handleOnStore env store phone msg =
        .ok (response "SEND_MESSAGE"
              "❌ I couldn’t understand the date. Please try something like *23rd*, *tomorrow*, or *next Monday*."
              "PENDING" none)
           .noop := by
      unfold handleOnStore signal_handler
      dsimp only
      rw [get_session_readOf, hs]
      simp [hstage, hparse]
    have h2 : storeAfter env store phone msg = store := by
      unfold storeAfter
      rw [h1]
      rfl
    exact ⟨h1, h2, by rw [h2]⟩

/-- C5 witness: with `sC3` (stage ASK_SLOT, keys "1" and "2") stored for
phone "p", the input "5" is rejected with no store change, twice. -/
theorem invalid_input_idempotent_witness :
    handleOnStore envC storeW "p" "5" =
      .ok (response "SEND_MESSAGE" "❌ Invalid choice." "PENDING" none)
         .noop ∧
    storeAfter envC storeW "p" "5" = storeW ∧
    handleOnStore envC (storeAfter envC storeW "p" "5") "p" "5" =
      handleOnStore envC storeW "p" "5" :=
  (invalid_input_idempotent envC storeW "p" "5" sC3 rfl).1 m1C rfl rfl
    (by decide)

/-- C9: a "yes" in CONFIRM_BOOKING on which the Booking Client returns
`None` yields the booking-failed reply with status PENDING and no store
effect, so the session stays in CONFIRM_BOOKING for a retry. -/
theorem booking_failure_retry (env : Env) (read : ReadOutcome)
    (phone msg : String) (s : Session) (sel : Slot)
    (hs : (get_session read).getD freshState = s)
    (hstage : s.stage = "CONFIRM_BOOKING")
    (hyes : pyLower (pyStrip msg) = "yes")
    (hsel : s.selected_slot = some sel)
    (hbook : create_booking env s.name s.email sel.iso = none) :
    signal_handler env read phone msg =
      .ok (response "SEND_MESSAGE" "⚠️ Booking failed." "PENDING" none)
         .noop := by
  subst hs
  unfold signal_handler
  dsimp only
  simp [hstage, hyes, hsel, hbook]

/-- C9 witness: under the failing booking API `envFail`, "yes" from `sC4`
replies "Booking failed." with no store effect. -/
theorem booking_failure_retry_witness :
    signal_handler envFail (.found sC4) "p" "yes" =
      .ok (response "SEND_MESSAGE" "⚠️ Booking failed." "PENDING" none)
         .noop :=
  booking_failure_retry envFail (.found sC4) "p" "yes" sC4
    ⟨"2026-01-02T04:30:00Z", "IST(2026-01-02T04:30:00Z)"⟩
    rfl rfl (by decide) rfl rfl

/-- C10: any store-read failure makes `get_session` return `None`, so the
handler starts a fresh ASK_NAME session, stores the message as the name and
saves, upserting over whatever session may still exist for that phone. -/
theorem store_error_fresh_session (env : Env) (phone msg : String) :
    get_session .storeError = none ∧
    signal_handler env .storeError phone msg =
      .ok (response "SEND_MESSAGE" "Thanks 😊 Please share your email ID."
            "PENDING" none)
         (.save phone
           { freshState with
             name := some (pyStrip msg), stage := "ASK_EMAIL" }) ∧
    ∀ store : String → Option Session,
      applyEffect store
        (.save phone
          { freshState with
            name := some (pyStrip msg), stage := "ASK_EMAIL" })
        phone
      = some { freshState with
               name := some (pyStrip msg), stage := "ASK_EMAIL" } := by
  refine ⟨rfl, ?_, ?_⟩
  · unfold signal_handler
    dsimp only
    rfl
  · intro store
    simp [applyEffect]

/-- C8: for every request whose session is well-formed (as all reachable
sessions are, `reachable_sessionWF`) and whose booking API meets its
interface contract, the handler returns an envelope — never a hard
failure — with `action` = "SEND_MESSAGE", empty `meta`, and `status`
"PENDING", except "BOOKED" exactly on the turn where a CONFIRM_BOOKING
"yes" leads to a successful booking. -/
theorem handler_envelope_spec (env : Env) (read : ReadOutcome)
    (phone msg : String) (s : Session)
    (hs : (get_session read).getD freshState = s)
    (henv : EnvWF env) (hwf : SessionWF s) :
    ∃ envl eff, signal_handler env read phone msg = .ok envl eff ∧
      envl.action = "SEND_MESSAGE" ∧ envl.meta = [] ∧
      (envl.status = "PENDING" ∨ envl.status = "BOOKED") ∧
      (envl.status = "BOOKED" ↔
        s.stage = "CONFIRM_BOOKING" ∧ pyLower (pyStrip msg) = "yes" ∧
        ∃ sel, s.selected_slot = some sel ∧
          (create_booking env s.name s.email sel.iso).isSome) := by
  obtain ⟨hwf1, hwf2⟩ := hwf
  unfold signal_handler
  dsimp only
  rw [hs]
  repeat' split
  all_goals try (refine ⟨_, _, rfl, rfl, rfl, Or.inl rfl, ?_⟩ <;> simp_all [response])
  all_goals try (refine ⟨_, _, rfl, rfl, rfl, Or.inr rfl, ?_⟩ <;> simp_all [response])
  · rename_i x0 hslots
    exact absurd hslots (hwf1 (by assumption))
  · rename_i x0 hsel
    exact absurd hsel (hwf2 (by assumption))
  · rename_i x1 booking hbook x0 hdata
    exfalso
    obtain ⟨d0, st0, hd0, hst0⟩ :=
      create_booking_data env henv _ _ _ _ hbook
    simp [hd0] at hdata
  · rename_i x2 booking hbook x1 d hd x0 hstart
    exfalso
    obtain ⟨d0, st0, hd0, hst0⟩ :=
      create_booking_data env henv _ _ _ _ hbook
    rw [hd] at hd0
    injection hd0 with hdd
    subst hdd
    simp [hstart] at hst0

/-- C8 witness: the successful "yes" turn from `sC4` under `envC`, where
the status is BOOKED and the booking call succeeds. -/
theorem handler_envelope_spec_witness :
    ∃ envl eff,
      signal_handler envC (.found sC4) "p" "yes" = .ok envl eff ∧
      envl.action = "SEND_MESSAGE" ∧ envl.meta = [] ∧
      (envl.status = "PENDING" ∨ envl.status = "BOOKED") ∧
      (envl.status = "BOOKED" ↔
        sC4.stage = "CONFIRM_BOOKING" ∧ pyLower (pyStrip "yes") = "yes" ∧
        ∃ sel, sC4.selected_slot = some sel ∧
          (create_booking envC sC4.name sC4.email sel.iso).isSome) :=
  handler_envelope_spec envC (.found sC4) "p" "yes" sC4 rfl
    (fun n e i => ⟨_, _, rfl, rfl⟩)
    ⟨fun hh => absurd hh (by decide), fun _ => by decide⟩

/-- C6: for every input text and fixed current time, the Date Resolver
returns `None` exactly when the text does not parse, or the parsed date is
strictly before today, or more than 30 days after today; otherwise the
returned date lies in `[today, today + 30]`. -/
theorem parse_user_date_spec (env : Env) (text : String) :
    (parse_user_date env text = none ↔
      env.dateparser_parse text = none ∨
      ∃ d, env.dateparser_parse text = some d ∧
        (d < env.today ∨ env.today + 30 < d)) ∧
    (∀ d, parse_user_date env text = some d →
      env.dateparser_parse text = some d ∧
      env.today ≤ d ∧ d ≤ env.today + 30) := by
  unfold parse_user_date BOOKING_WINDOW_DAYS
  cases h : env.dateparser_parse text with
  | none => simp
  | some d =>
    dsimp only
    constructor
    · split_ifs with h1 h2 <;> simp <;> omega
    · intro d' hd'
      split_ifs at hd' with h1 h2
      cases hd'
      exact ⟨rfl, by omega, by omega⟩

/-- C6 witness: in `envC`, "tomorrow" resolves to day 1 which lies inside
the booking window. -/
theorem parse_user_date_spec_witness :
    envC.dateparser_parse "tomorrow" = some 1 ∧
    envC.today ≤ 1 ∧ (1 : Int) ≤ envC.today + 30 :=
  (parse_user_date_spec envC "tomorrow").2 1 (by decide)

/-- C7: `slotsForDate` returns at most 3 entries, keyed exactly
`"1".."n"` contiguously from 1, in API order with each slot's UTC start
converted to the display-timezone label; it is empty on a non-200 response
or an empty result list. -/
theorem get_slots_for_date_spec (env : Env) (d : Int) :
    (get_slots_for_date env d).length ≤ 3 ∧
    (get_slots_for_date env d).map Prod.fst
      = (List.range' 1 (get_slots_for_date env d).length).map toString ∧
    ((env.slots_api d).1 ≠ 200 → get_slots_for_date env d = []) ∧
    ((env.slots_api d).2 = [] → get_slots_for_date env d = []) ∧
    ((env.slots_api d).1 = 200 →
      (get_slots_for_date env d).map Prod.snd
        = ((env.slots_api d).2.take 3).map
            (fun s => { iso := s.start, label := env.toIstLabel s.start })) := by
  rw [get_slots_for_date_eq]
  split
  · rename_i h200
    exact ⟨by simp, by simp, fun _ => rfl, fun _ => rfl,
           fun hc => absurd hc h200⟩
  · rename_i h200
    refine ⟨?_, ?_, ?_, ?_, ?_⟩
    · rw [numbered_length]
      simp [List.length_take]
    · rw [numbered_keys, numbered_length]
    · intro hc; exact absurd hc h200
    · intro he; simp [he, numbered]
    · intro _; rw [numbered_vals]

/-- C7 witness: in `envC`, day 2 has an empty API result list, and
`slotsForDate` returns the empty mapping there. -/
theorem get_slots_for_date_spec_witness :
    get_slots_for_date envC 2 = [] :=
  (get_slots_for_date_spec envC 2).2.2.2.1 (by decide)

lemma find_next_aux_none (env : Env) (start : Int) :
    ∀ (fuel i : Nat),
      (∀ k : Nat, i ≤ k → k < i + fuel →
        get_slots_for_date env (start + k) = []) →
      find_next_aux env start i fuel = (none, []) := by
  intro fuel
  induction fuel with
  | zero => intro i _; rfl
  | succ fuel ih =>
    intro i hall
    unfold find_next_aux
    dsimp only
    rw [if_pos (hall i le_rfl (by omega))]
    exact ih (i + 1) (fun k hk1 hk2 => hall k (by omega) (by omega))

lemma find_next_aux_some (env : Env) (start : Int) :
    ∀ (fuel i : Nat) (d : Int) (m : List (String × Slot)),
      find_next_aux env start i fuel = (some d, m) →
      ∃ k : Nat, i ≤ k ∧ k < i + fuel ∧ d = start + k ∧
        m = get_slots_for_date env (start + k) ∧ m ≠ [] ∧
        ∀ j : Nat, i ≤ j → j < k → get_slots_for_date env (start + j) = [] := by
  intro fuel
  induction fuel with
  | zero => intro i d m h; exact absurd h (by simp [find_next_aux])
  | succ fuel ih =>
    intro i d m h
    unfold find_next_aux at h
    dsimp only at h
    by_cases hs : get_slots_for_date env (start + i) = []
    · rw [if_pos hs] at h
      obtain ⟨k, hk1, hk2, hd, hm, hne, hprev⟩ := ih (i + 1) d m h
      refine ⟨k, by omega, by omega, hd, hm, hne, ?_⟩
      intro j hj1 hj2
      rcases Nat.eq_or_lt_of_le hj1 with rfl | hlt
      · exact hs
      · exact hprev j (by omega) hj2
    · rw [if_neg hs] at h
      injection h with h1 h2
      injection h1 with h1
      subst h1
      subst h2
      exact ⟨i, le_rfl, by omega, rfl, rfl, hs,
             fun j hj1 hj2 => absurd (Nat.lt_of_le_of_lt hj1 hj2)
               (Nat.lt_irrefl _)⟩

lemma find_next_aux_fst_none (env : Env) (start : Int) :
    ∀ (fuel i : Nat) (m : List (String × Slot)),
      find_next_aux env start i fuel = (none, m) → m = [] := by
  intro fuel
  induction fuel with
  | zero => intro i m h; cases h; rfl
  | succ fuel ih =>
    intro i m h
    unfold find_next_aux at h
    dsimp only at h
    by_cases hs : get_slots_for_date env (start + i) = []
    · rw [if_pos hs] at h
      exact ih _ _ h
    · rw [if_neg hs] at h
      exact absurd (congrArg Prod.fst h) (by simp)

lemma find_next_aux_none_forward (env : Env) (start : Int) :
    ∀ (fuel i : Nat), find_next_aux env start i fuel = (none, []) →
      ∀ k : Nat, i ≤ k → k < i + fuel →
        get_slots_for_date env (start + k) = [] := by
  intro fuel
  induction fuel with
  | zero => intro i _ k hk1 hk2; exact absurd hk2 (by omega)
  | succ fuel ih =>
    intro i h k hk1 hk2
    unfold find_next_aux at h
    dsimp only at h
    by_cases hs : get_slots_for_date env (start + i) = []
    · rw [if_pos hs] at h
      rcases Nat.eq_or_lt_of_le hk1 with rfl | hlt
      · exact hs
      · exact ih (i + 1) h k (by omega) (by omega)
    · rw [if_neg hs] at h
      exact absurd (congrArg Prod.fst h) (by simp)

/-- C4: `findNextAvailable` examines only dates strictly after the start
date, scans at most 30 days ahead one day at a time, returns the first
examined date whose slot mapping is non-empty together with that mapping,
and returns `(None, {})` exactly when every examined date is empty. -/
theorem find_next_available_date_spec (env : Env) (start : Int) :
    (∀ d m, find_next_available_date env start = (some d, m) →
      start < d ∧ d ≤ start + 30 ∧ m = get_slots_for_date env d ∧ m ≠ [] ∧
      ∀ j : Int, start < j → j < d → get_slots_for_date env j = []) ∧
    (∀ m, find_next_available_date env start = (none, m) → m = []) ∧
    (find_next_available_date env start = (none, []) ↔
      ∀ i : Nat, 1 ≤ i → i ≤ 30 → get_slots_for_date env (start + i) = []) := by
  refine ⟨?_, ?_, ?_, ?_⟩
  · intro d m h
    obtain ⟨k, hk1, hk2, hd, hm, hne, hprev⟩ :=
      find_next_aux_some env start BOOKING_WINDOW_DAYS 1 d m h
    subst hd
    refine ⟨by simp [BOOKING_WINDOW_DAYS] at hk2 ⊢; omega,
            by simp [BOOKING_WINDOW_DAYS] at hk2 ⊢; omega, hm, hne, ?_⟩
    intro j hj1 hj2
    have hn : ((j - start).toNat : Int) = j - start := Int.toNat_of_nonneg (by omega)
    have hj : start + ((j - start).toNat : Int) = j := by omega
    rw [← hj]
    exact hprev (j - start).toNat (by omega) (by omega)
  · intro m h
    exact find_next_aux_fst_none env start BOOKING_WINDOW_DAYS 1 m h
  · intro h i hi1 hi2
    exact find_next_aux_none_forward env start BOOKING_WINDOW_DAYS 1 h i hi1
      (by simp [BOOKING_WINDOW_DAYS]; omega)
  · intro hall
    exact find_next_aux_none env start BOOKING_WINDOW_DAYS 1
      (fun k hk1 hk2 => hall k hk1 (by simp [BOOKING_WINDOW_DAYS] at hk2; omega))

/-- C4 witness: in `envC`, the scan from day 0 returns day 1 with its
two-slot mapping; day 1 is strictly after day 0 and inside the horizon. -/
theorem find_next_available_date_spec_witness :
    (0 : Int) < 1 ∧ (1 : Int) ≤ 0 + 30 ∧
    m1C = get_slots_for_date envC 1 ∧ m1C ≠ [] ∧
    ∀ j : Int, 0 < j → j < 1 → get_slots_for_date envC j = [] :=
  (find_next_available_date_spec envC 0).1 1 m1C (by decide)

end Booking
